import Mathlib

/-!
Shallow embedding of `src/Secondary_Research/base_model_tuning_and_testing.js`,
a Google Earth Engine script that prepares labeled land-cover points, builds a
cloud-masked Landsat-8 composite with derived spectral indices, splits the
points into training and testing sets, sweeps the tree count of a random
forest, and selects the best candidate by held-out accuracy.

The embedding works per pixel / per table row.  Numeric band values are
rationals, a masked (unset) pixel value is `none : Option ℚ`.  Earth Engine
library primitives that the script calls are modelled by small Lean functions
whose doc comments record where their semantics come from.
-/

namespace GIS

/-! ## Section 2 of the script: labeled points and the priority chain -/

/-- One row of the input label table: optional lon/lat columns (a missing
value is `none`, mirroring the `ee.Filter.notNull(['lon','lat'])` test) and
the 8 binary category columns, kept in the order the script tests them. -/
structure Row where
  lon : Option ℚ
  lat : Option ℚ
  forest : ℤ
  treeBasedAG : ℤ
  wetPaddy : ℤ
  grassland : ℤ
  urban : ℤ
  shiftingCultivation : ℤ
  nonTreeBasedAgriculture : ℤ
  other : ℤ
deriving DecidableEq, Repr

/-- The nested `ee.Algorithms.If` chain of lines 29-37: the first category
flag equal to 1, in the fixed order Forest, Tree Based AG, Wet Paddy,
Grassland, Urban, Shifting Cultivation, Non-Tree based agriculture, Other,
gives the class code 0..7; otherwise the sentinel 99. -/
def classNumber (r : Row) : ℕ :=
  if r.forest = 1 then 0
  else if r.treeBasedAG = 1 then 1
  else if r.wetPaddy = 1 then 2
  else if r.grassland = 1 then 3
  else if r.urban = 1 then 4
  else if r.shiftingCultivation = 1 then 5
  else if r.nonTreeBasedAgriculture = 1 then 6
  else if r.other = 1 then 7
  else 99

/-- The 8 category flags of a row, in the order the chain tests them. -/
def flagList (r : Row) : List ℤ :=
  [r.forest, r.treeBasedAG, r.wetPaddy, r.grassland, r.urban,
   r.shiftingCultivation, r.nonTreeBasedAgriculture, r.other]

/-- A labeled point produced from a row: the row (its lon/lat giving the
geometry) together with the `target_class` property. -/
structure Point where
  row : Row
  targetClass : ℕ
deriving DecidableEq, Repr

/-- Lines 23-41: keep the rows whose lon and lat are both present and attach
`target_class` via the priority chain. -/
def points (table : List Row) : List Point :=
  (table.filter fun r => r.lon.isSome && r.lat.isSome).map
    fun r => ⟨r, classNumber r⟩

/-- Line 43: keep the points whose `target_class` is strictly below 99. -/
def finalPoints (table : List Row) : List Point :=
  (points table).filter fun p => decide (p.targetClass < 99)

/-- Modelled from the spec: the claimed resolution rule, "ClassCode =
chain-index (0-based) of the first flag equal to 1; if none equal 1, assign
sentinel 99", written as a scan over the flag list that tracks the index. -/
def firstIndexOfOne : List ℤ → ℕ → ℕ
  | [], _ => 99
  | f :: rest, i => if f = 1 then i else firstIndexOfOne rest (i + 1)

/-- Modelled from the spec: the class code the spec says a row resolves to. -/
def specPriorityChain (r : Row) : ℕ :=
  firstIndexOfOne (flagList r) 0

/-! ## Section 4 of the script: train/test split -/

/-- Line 104: `randomColumn` attaches a pseudo-random key to each feature.
Modelled from the spec: the engine assigns each point a deterministic key in
[0,1); we take the keys as a function of the point's position in the list. -/
def attachKeys (keys : ℕ → ℚ) : List Point → ℕ → List (Point × ℚ)
  | [], _ => []
  | p :: rest, i => (p, keys i) :: attachKeys keys rest (i + 1)

/-- The surviving points with their random split keys attached. -/
def withRandom (table : List Row) (keys : ℕ → ℚ) : List (Point × ℚ) :=
  attachKeys keys (finalPoints table) 0

/-- Line 105: `finalPoints.filter(ee.Filter.lte('random', 0.8))`. -/
def trainingSet (table : List Row) (keys : ℕ → ℚ) : List (Point × ℚ) :=
  (withRandom table keys).filter fun pk => decide (pk.2 ≤ 4/5)

/-- Line 106: `finalPoints.filter(ee.Filter.gt('random', 0.8))`. -/
def testingSet (table : List Row) (keys : ℕ → ℚ) : List (Point × ℚ) :=
  (withRandom table keys).filter fun pk => decide (4/5 < pk.2)

/-! ## Section 3 of the script: masking and the quality mosaic, per pixel -/

/-- One pixel of a raw Landsat scene, together with the image-level
`CLOUD_COVER` property.  `qa` is the `QA_PIXEL` band value (assumed valid
inside the scene footprint); the six surface-reflectance bands SR_B2..SR_B7
and the representative non-SR band ST_B10 carry their own validity masks. -/
structure ScenePixel where
  qa : ℕ
  srB2 : Option ℚ
  srB3 : Option ℚ
  srB4 : Option ℚ
  srB5 : Option ℚ
  srB6 : Option ℚ
  srB7 : Option ℚ
  stB10 : Option ℚ
  cloudCover : ℚ
deriving DecidableEq, Repr

/-- The same pixel after `maskL8sr`: `updateMask` may have invalidated the
bands it reached, so the QA band value becomes optional. -/
structure MaskedPixel where
  qa : Option ℕ
  srB2 : Option ℚ
  srB3 : Option ℚ
  srB4 : Option ℚ
  srB5 : Option ℚ
  srB6 : Option ℚ
  srB7 : Option ℚ
  stB10 : Option ℚ
  cloudCover : ℚ
deriving DecidableEq, Repr

/-- Line 52: `(1 << 1) | (1 << 3) | (1 << 4)`. -/
def cloudMaskBits : ℕ := (1 <<< 1) ||| (1 <<< 3) ||| (1 <<< 4)

/-- Line 53: the pixel passes the mask when `qa.bitwiseAnd(cloudMask).eq(0)`. -/
def maskOK (qa : ℕ) : Bool := qa &&& cloudMaskBits == 0

/-- Line 54: the fixed linear rescale of the optical bands,
`multiply(0.0000275).add(-0.2)`, exact over the rationals. -/
def rescale (v : ℚ) : ℚ := v * (275 / 10000000) + (-(2 / 10))

/-- Lines 50-58, per pixel.  The script computes `opticalBands` from the
original image, applies `updateMask(mask)` to the whole image, and then
`addBands(opticalBands, null, true)` overwrites the SR bands with the
rescaled originals.  Overwriting replaces both value and validity, so the
resulting SR bands keep the original footprint validity (the cloud/shadow
mask is not applied to them), while every other band is cloud-masked. -/
def maskL8sr (p : ScenePixel) : MaskedPixel :=
  let ok := maskOK p.qa
  { qa := if ok then some p.qa else none
    srB2 := p.srB2.map rescale
    srB3 := p.srB3.map rescale
    srB4 := p.srB4.map rescale
    srB5 := p.srB5.map rescale
    srB6 := p.srB6.map rescale
    srB7 := p.srB7.map rescale
    stB10 := if ok then p.stB10 else none
    cloudCover := p.cloudCover }

/-- Lines 60-65: the quality band added after masking is the unmasked
constant `100 - CLOUD_COVER` of the image. -/
def qualityScore (m : MaskedPixel) : ℚ := 100 - m.cloudCover

/-- Modelled from the spec and the engine's documented `qualityMosaic`
semantics: per pixel, the composite takes all band values from the image
whose quality band has the highest valid value at that pixel, earlier images
winning ties (scan order).  Here the quality band is the unmasked constant
`qualityScore`, so every image is eligible at every pixel. -/
def pickBest : List MaskedPixel → Option MaskedPixel
  | [] => none
  | m :: rest =>
    match pickBest rest with
    | none => some m
    | some b => if qualityScore b > qualityScore m then some b else some m

/-- Lines 72-77, per pixel: mask and rescale every scene, then reduce by
`qualityMosaic('quality_score')`. -/
def mosaicPixel (scenes : List ScenePixel) : Option MaskedPixel :=
  pickBest (scenes.map maskL8sr)

/-- Lines 79-82, per pixel: select the six SR bands and rename them to
blue, green, red, nir, swir1, swir2. -/
structure BandPixel where
  blue : Option ℚ
  green : Option ℚ
  red : Option ℚ
  nir : Option ℚ
  swir1 : Option ℚ
  swir2 : Option ℚ
deriving DecidableEq, Repr

/-- The band renaming of line 82 applied to one composite pixel. -/
def renameBands (m : MaskedPixel) : BandPixel :=
  ⟨m.srB2, m.srB3, m.srB4, m.srB5, m.srB6, m.srB7⟩

/-- Modelled from the spec: the engine's band math propagates a masked
(unset) result when a denominator is zero, and never raises. -/
def safeDiv (a b : ℚ) : Option ℚ :=
  if b = 0 then none else some (a / b)

/-- Line 84: `normalizedDifference(['nir','red'])`, i.e. (nir−red)/(nir+red);
unset when either input band is unset or the denominator is zero. -/
def getNDVI (p : BandPixel) : Option ℚ :=
  match p.nir, p.red with
  | some n, some r => safeDiv (n - r) (n + r)
  | _, _ => none

/-- Line 87: pri = (blue−green)/(blue+green). -/
def getPRI (p : BandPixel) : Option ℚ :=
  match p.blue, p.green with
  | some b, some g => safeDiv (b - g) (b + g)
  | _, _ => none

/-- Line 88: cai = swir2/swir1. -/
def getCAI (p : BandPixel) : Option ℚ :=
  match p.swir2, p.swir1 with
  | some s2, some s1 => safeDiv s2 s1
  | _, _ => none

/-- Line 93: gcvi = nir/green − 1. -/
def getGCVI (p : BandPixel) : Option ℚ :=
  match p.nir, p.green with
  | some n, some g => (safeDiv n g).map (fun q => q - 1)
  | _, _ => none

/-! ## Sections 5 and 6 of the script: the tuning sweep and the selector -/

/-- Line 17: the hyperparameter grid. -/
def numTreesList : List ℕ := [50, 100, 150, 200, 250, 300]

/-- One sampled training or testing example: a feature vector and the
`target_class` label. -/
structure Example where
  feats : List ℚ
  target : ℕ
deriving DecidableEq, Repr

/-- One entry of the `results` list of line 132: the tree count and the
accuracy the candidate scored. -/
structure Candidate where
  trees : ℕ
  accuracy : ℚ
deriving DecidableEq, Repr

/-- Modelled from the spec: `errorMatrix(...).accuracy()` is the fraction of
(true, predicted) pairs that agree — trace over total — taken as 0 when the
test set is empty. -/
def accuracyOf (pairs : List (ℕ × ℕ)) : ℚ :=
  if pairs.length = 0 then 0
  else (pairs.countP fun ab => ab.1 == ab.2 : ℕ) / pairs.length

/-- Lines 117-133: for every entry of the tree-count list, train a random
forest on the training data (the engine's trained classifier is the
parameter `train`, a function from tree count and training data to a
per-example prediction), classify the testing data, and record the tree
count with its accuracy.  There is no emptiness check on either data set and
no early exit: the map runs over the whole list unconditionally. -/
def tuneResults (train : ℕ → List Example → List ℚ → ℕ)
    (trainingData testingData : List Example) (ns : List ℕ) : List Candidate :=
  ns.map fun n =>
    let model := train n trainingData
    let validation := testingData.map fun e => (e.target, model e.feats)
    ⟨n, accuracyOf validation⟩

/-- Modelled from the spec: `resultsFC.sort('accuracy', false)` is a stable
sort, descending by accuracy — insertion keeps an earlier candidate in front
of any later candidate of equal accuracy. -/
def insertDesc (c : Candidate) : List Candidate → List Candidate
  | [] => [c]
  | b :: rest =>
    if b.accuracy ≤ c.accuracy then c :: b :: rest else b :: insertDesc c rest

/-- Stable descending-by-accuracy sort of the candidate list. -/
def sortByAccuracyDesc : List Candidate → List Candidate
  | [] => []
  | c :: rest => insertDesc c (sortByAccuracyDesc rest)

/-- Line 140: `resultsFC.sort('accuracy', false).first().get('trees')`;
`none` when the candidate list is empty (the engine's `first()` would
error there). -/
def bestNumberOfTrees (results : List Candidate) : Option ℕ :=
  (sortByAccuracyDesc results).head?.map Candidate.trees

/-- Modelled from the spec: the selection contract, "the Candidate with
strictly maximum Accuracy; ties broken by earliest occurrence in the
candidate list". -/
def specFirstMax : List Candidate → Option Candidate
  | [] => none
  | c :: rest =>
    match specFirstMax rest with
    | none => some c
    | some m => if m.accuracy > c.accuracy then some m else some c

/-! ## Concrete inputs used by counterexamples and witnesses -/

/-- A one-row label table whose single row is a valid Forest point. -/
def forestTable : List Row :=
  [{ lon := some 0, lat := some 0, forest := 1, treeBasedAG := 0, wetPaddy := 0,
     grassland := 0, urban := 0, shiftingCultivation := 0,
     nonTreeBasedAgriculture := 0, other := 0 }]

/-- A constant split-key assignment. -/
def halfKeys : ℕ → ℚ := fun _ => 1/2

/-- The point the single row of `forestTable` resolves to, with its key. -/
def forestPointKeyed : Point × ℚ :=
  (⟨{ lon := some 0, lat := some 0, forest := 1, treeBasedAG := 0, wetPaddy := 0,
      grassland := 0, urban := 0, shiftingCultivation := 0,
      nonTreeBasedAgriculture := 0, other := 0 }, 0⟩, 1/2)

/-- A trained-classifier stand-in that predicts class 0 everywhere. -/
def trainZero : ℕ → List Example → List ℚ → ℕ := fun _ _ _ => 0

/-- A scene pixel flagged as cloudy (QA bit 1 set) in a scene with
`CLOUD_COVER = 0`, so its quality score 100 is maximal. -/
def cloudyScene : ScenePixel :=
  { qa := 2, srB2 := some 0, srB3 := some 0, srB4 := some 0, srB5 := some 40000,
    srB6 := some 0, srB7 := some 0, stB10 := some 0, cloudCover := 0 }

/-- A scene pixel flagged as cloudy, with set SR and ST values. -/
def flaggedScene : ScenePixel :=
  { qa := 2, srB2 := some 0, srB3 := some 0, srB4 := some 0, srB5 := some 0,
    srB6 := some 0, srB7 := some 0, stB10 := some 3, cloudCover := 5 }

/-- A composite pixel whose six bands are all set to 0. -/
def zeroPixel : BandPixel := ⟨some 0, some 0, some 0, some 0, some 0, some 0⟩

/-- A composite pixel with red = 0.2 and nir = 0.4. -/
def ndviPixel : BandPixel := ⟨none, none, some (1/5), some (2/5), none, none⟩

/-- A composite pixel with blue = 0.1 and green = 0.3. -/
def priPixel : BandPixel := ⟨some (1/10), some (3/10), none, none, none, none⟩

/-! ## Helper lemmas -/

/-- The nested conditional of the script computes the spec's first-match
index scan. -/
theorem classNumber_eq_spec (r : Row) : classNumber r = specPriorityChain r := by
  rfl

/-- The chain only ever produces a code below 8 or the sentinel 99. -/
theorem classNumber_le7_or_99 (r : Row) :
    classNumber r ≤ 7 ∨ classNumber r = 99 := by
  unfold classNumber
  split_ifs <;> simp

/-- Membership in `points` comes from a row of the table with lon and lat
present, and carries that row's chain code. -/
theorem mem_points (table : List Row) (p : Point) (hp : p ∈ points table) :
    p.targetClass = classNumber p.row := by
  unfold points at hp
  obtain ⟨r, hmem, hr⟩ := List.mem_map.mp hp
  rw [← hr]

/-- Every point surviving the sentinel filter has a class code at most 7. -/
theorem mem_finalPoints_le7 (table : List Row) (p : Point)
    (hp : p ∈ finalPoints table) : p.targetClass ≤ 7 := by
  unfold finalPoints at hp
  have hsplit := List.mem_filter.mp hp
  have hlt : p.targetClass < 99 := by
    have := hsplit.2
    simpa using this
  have hclass := mem_points table p hsplit.1
  rcases classNumber_le7_or_99 p.row with h | h
  · omega
  · omega

/-- Attaching keys does not invent points. -/
theorem fst_mem_of_mem_attachKeys (keys : ℕ → ℚ) :
    ∀ (l : List Point) (i : ℕ) (pk : Point × ℚ),
      pk ∈ attachKeys keys l i → pk.1 ∈ l := by
  intro l
  induction l with
  | nil => intro i pk h; simp [attachKeys] at h
  | cons p rest ih =>
    intro i pk h
    rcases List.mem_cons.mp h with h1 | h1
    · rw [h1]; exact List.mem_cons_self p rest
    · exact List.mem_cons_of_mem p (ih (i + 1) pk h1)

/-- The training and testing filters split any keyed list by length. -/
theorem filter_split_length (l : List (Point × ℚ)) :
    (l.filter fun pk => decide (pk.2 ≤ 4/5)).length
      + (l.filter fun pk => decide (4/5 < pk.2)).length = l.length := by
  induction l with
  | nil => rfl
  | cons pk rest ih =>
    simp only [List.filter_cons]
    by_cases h : pk.2 ≤ 4/5
    · rw [if_pos (by simpa using h), if_neg (by simpa using not_lt.mpr h)]
      simp only [List.length_cons]
      omega
    · rw [if_neg (by simpa using h), if_pos (by simpa using not_le.mp h)]
      simp only [List.length_cons]
      omega

/-- The head of an insertion is decided by the head of the target list. -/
theorem head_insertDesc (c b : Candidate) (rest : List Candidate) :
    (insertDesc c (b :: rest)).head?
      = some (if b.accuracy ≤ c.accuracy then c else b) := by
  unfold insertDesc
  split_ifs with h <;> simp [h]

/-- The first element of the stable descending sort is the earliest
candidate of maximum accuracy. -/
theorem head_sort_eq_specFirstMax (l : List Candidate) :
    (sortByAccuracyDesc l).head? = specFirstMax l := by
  induction l with
  | nil => rfl
  | cons c rest ih =>
    cases hs : sortByAccuracyDesc rest with
    | nil =>
      rw [hs] at ih
      simp only [sortByAccuracyDesc, hs, insertDesc, specFirstMax, ← ih]
      rfl
    | cons b t =>
      rw [hs] at ih
      have hmax : specFirstMax rest = some b := ih.symm
      simp only [sortByAccuracyDesc, hs, specFirstMax, hmax]
      rw [head_insertDesc]
      rcases le_or_lt b.accuracy c.accuracy with h | h
      · rw [if_pos h, if_neg (not_lt.mpr h)]
      · rw [if_neg (not_le.mpr h), if_pos h]

/-! ## Claim theorems -/

/-- C1: for every label row, the resolved class code equals the 0-based
index of the first flag equal to 1 in the order Forest, Tree Based AG, Wet
Paddy, Grassland, Urban, Shifting Cultivation, Non-Tree based agriculture,
Other (the sentinel 99 when no flag equals 1); every point built from a row
with lon and lat present carries that code, and every point surviving the
filter has a code below 99, so sentinel rows are excluded. -/
theorem priority_chain_determinism :
    (∀ r : Row, classNumber r = specPriorityChain r) ∧
    (∀ table : List Row,
      ((points table).all fun p => p.targetClass == specPriorityChain p.row) = true) ∧
    (∀ table : List Row,
      ((finalPoints table).all fun p => decide (p.targetClass < 99)) = true) := by
  refine ⟨classNumber_eq_spec, ?_, ?_⟩
  · intro table
    rw [List.all_eq_true]
    intro p hp
    have := mem_points table p hp
    simpa [this] using classNumber_eq_spec p.row
  · intro table
    rw [List.all_eq_true]
    intro p hp
    unfold finalPoints at hp
    exact (List.mem_filter.mp hp).2

/-- C2: the selector returns the candidate of maximum accuracy, and among
candidates sharing the maximum accuracy it returns the earliest in the list;
in particular, from the candidates (50, 0.80), (100, 0.85), (150, 0.85) it
selects tree count 100. -/
theorem selector_picks_first_max :
    (∀ cands : List Candidate,
      bestNumberOfTrees cands = (specFirstMax cands).map Candidate.trees) ∧
    bestNumberOfTrees [⟨50, 80/100⟩, ⟨100, 85/100⟩, ⟨150, 85/100⟩] = some 100 := by
  constructor
  · intro cands
    unfold bestNumberOfTrees
    rw [head_sort_eq_specFirstMax]
  · norm_num [bestNumberOfTrees, sortByAccuracyDesc, insertDesc]

/-- C3, counterexample: the script contains no emptiness check, so with an
empty training set and an empty testing set the tuning sweep still returns
one candidate per tree count (here all six of them, each scoring the
empty-matrix accuracy 0) instead of failing before training or scoring. -/
theorem tuner_no_empty_check_cex :
    tuneResults trainZero [] [] numTreesList
      = [⟨50, 0⟩, ⟨100, 0⟩, ⟨150, 0⟩, ⟨200, 0⟩, ⟨250, 0⟩, ⟨300, 0⟩] := by
  decide

/-- C3, amended: the tuner never detects empty training or testing sets; it
unconditionally emits one candidate per tree count, every one of which
scores accuracy 0 over the empty test set. -/
theorem tuner_runs_on_empty_sets :
    ∀ (train : ℕ → List Example → List ℚ → ℕ) (ns : List ℕ),
      (tuneResults train [] [] ns).map Candidate.trees = ns ∧
      ((tuneResults train [] [] ns).all fun c => c.accuracy == 0) = true := by
  intro train ns
  constructor
  · simp [tuneResults, List.map_map, Function.comp_def]
  · rw [List.all_eq_true]
    intro c hc
    obtain ⟨n, hn, hcn⟩ := List.mem_map.mp hc
    rw [← hcn]
    simp [accuracyOf]

/-- C4: for every tree-count list the tuner emits exactly one candidate per
entry, in input order, each fully evaluated: its accuracy is the score of
the classifier trained with that tree count over the whole test set. -/
theorem tuner_one_candidate_per_value :
    ∀ (train : ℕ → List Example → List ℚ → ℕ)
      (trainingData testingData : List Example) (ns : List ℕ),
      (tuneResults train trainingData testingData ns).map Candidate.trees = ns ∧
      (tuneResults train trainingData testingData ns).map Candidate.accuracy
        = ns.map fun n =>
            accuracyOf (testingData.map fun e => (e.target, train n trainingData e.feats)) := by
  intro train trainingData testingData ns
  constructor <;> simp [tuneResults, List.map_map, Function.comp_def]

/-- C5: every surviving keyed point lies in the training set exactly when
its key is at most 0.8 and in the testing set exactly when its key exceeds
0.8, so it belongs to exactly one of the two partitions, and the two
partitions together have as many points as the surviving set. -/
theorem split_partition (table : List Row) (keys : ℕ → ℚ) :
    (∀ pk : Point × ℚ, pk ∈ withRandom table keys →
      ((pk ∈ trainingSet table keys ↔ pk.2 ≤ 4/5) ∧
       (pk ∈ testingSet table keys ↔ 4/5 < pk.2) ∧
       (pk ∈ trainingSet table keys ∨ pk ∈ testingSet table keys) ∧
       ¬(pk ∈ trainingSet table keys ∧ pk ∈ testingSet table keys))) ∧
    (trainingSet table keys).length + (testingSet table keys).length
      = (withRandom table keys).length := by
  constructor
  · intro pk hpk
    have htr : pk ∈ trainingSet table keys ↔ pk.2 ≤ 4/5 := by
      unfold trainingSet
      rw [List.mem_filter]
      simp [hpk]
    have hte : pk ∈ testingSet table keys ↔ 4/5 < pk.2 := by
      unfold testingSet
      rw [List.mem_filter]
      simp [hpk]
    refine ⟨htr, hte, ?_, ?_⟩
    · rcases le_or_lt pk.2 (4/5) with h | h
      · exact Or.inl (htr.mpr h)
      · exact Or.inr (hte.mpr h)
    · rintro ⟨h1, h2⟩
      exact absurd (htr.mp h1) (not_le.mpr (hte.mp h2))
  · exact filter_split_length (withRandom table keys)

/-- C5, witness: in the one-point table the surviving point has key 1/2, so
it lands in the training partition and the two partition sizes add up. -/
theorem split_partition_witness :
    (forestPointKeyed ∈ trainingSet forestTable halfKeys ∨
     forestPointKeyed ∈ testingSet forestTable halfKeys) ∧
    (trainingSet forestTable halfKeys).length
      + (testingSet forestTable halfKeys).length
      = (withRandom forestTable halfKeys).length :=
  ⟨((split_partition forestTable halfKeys).1 forestPointKeyed
      (by rw [show withRandom forestTable halfKeys = [forestPointKeyed] from rfl]
          exact List.mem_singleton.mpr rfl)).2.2.1,
   (split_partition forestTable halfKeys).2⟩

/-- C6, code evaluation at the failing input: a pixel whose QA value has bit
1 set fails the cloud mask, yet when its scene has the top quality score the
composite still carries its rescaled SR_B5 value 0.9 — the masked pixel
contributes a value, because maskL8sr overwrites the masked SR bands with
rescaled bands taken from the unmasked original. -/
theorem cloudy_pixel_contributes :
    maskOK cloudyScene.qa = false ∧
    (mosaicPixel [cloudyScene]).map MaskedPixel.srB5 = some (some (9/10)) := by
  constructor
  · decide
  · norm_num [mosaicPixel, pickBest, maskL8sr, maskOK, cloudMaskBits,
      cloudyScene, rescale]

/-- C7: wherever a derived-index denominator is zero, the feature value is
unset (`none`) for that pixel and band: ndvi when nir + red = 0, pri when
blue + green = 0, cai when swir1 = 0, gcvi when green = 0.  The index
functions are total, so no error is ever raised. -/
theorem zero_denominator_unset :
    ∀ p : BandPixel,
      (∀ n r, p.nir = some n → p.red = some r → n + r = 0 → getNDVI p = none) ∧
      (∀ b g, p.blue = some b → p.green = some g → b + g = 0 → getPRI p = none) ∧
      (∀ s2, p.swir2 = some s2 → p.swir1 = some 0 → getCAI p = none) ∧
      (∀ n, p.nir = some n → p.green = some 0 → getGCVI p = none) := by
  intro p
  refine ⟨?_, ?_, ?_, ?_⟩
  · intro n r hn hr hsum
    unfold getNDVI
    rw [hn, hr]
    simp [safeDiv, hsum]
  · intro b g hb hg hsum
    unfold getPRI
    rw [hb, hg]
    simp [safeDiv, hsum]
  · intro s2 h2 h1
    unfold getCAI
    rw [h2, h1]
    simp [safeDiv]
  · intro n hn hg
    unfold getGCVI
    rw [hn, hg]
    simp [safeDiv]

/-- C7, witness: at the all-zero pixel every denominator is zero and all
four indices come out unset. -/
theorem zero_denominator_unset_witness :
    getNDVI zeroPixel = none ∧ getPRI zeroPixel = none ∧
    getCAI zeroPixel = none ∧ getGCVI zeroPixel = none :=
  ⟨(zero_denominator_unset zeroPixel).1 0 0 rfl rfl (by norm_num),
   (zero_denominator_unset zeroPixel).2.1 0 0 rfl rfl (by norm_num),
   (zero_denominator_unset zeroPixel).2.2.1 0 rfl rfl,
   (zero_denominator_unset zeroPixel).2.2.2 0 rfl rfl⟩

/-- C8: the derived indices equal their formulas at concrete band values:
with red = 0.2 and nir = 0.4, ndvi = 1/3; with blue = 0.1 and green = 0.3,
pri = −1/2. -/
theorem derived_index_values :
    getNDVI ndviPixel = some (1/3) ∧ getPRI priPixel = some (-(1/2)) := by
  constructor
  · norm_num [getNDVI, ndviPixel, safeDiv]
  · norm_num [getPRI, priPixel, safeDiv]

/-- C9, counterexample: the mask is not applied uniformly to all bands — at
a pixel failing the cloud test the ST band is unset but the overwritten
SR_B2 band still holds its rescaled value −0.2, where the claim says it
would be unset too. -/
theorem mask_not_uniform_cex :
    maskOK flaggedScene.qa = false ∧
    (maskL8sr flaggedScene).stB10 = none ∧
    (maskL8sr flaggedScene).srB2 = some (-(1/5)) ∧
    (maskL8sr flaggedScene).srB2 ≠ none := by
  refine ⟨by decide, by decide, ?_, ?_⟩
  · norm_num [maskL8sr, flaggedScene, rescale]
  · simp [maskL8sr, flaggedScene]

/-- C9, amended: maskL8sr rescales exactly the SR bands, keeping their
original validity, leaves the cloud-cover property unchanged, and applies
the cloud/shadow mask to every other band (here QA_PIXEL and ST_B10), which
otherwise keep their original values. -/
theorem maskL8sr_frame :
    ∀ p : ScenePixel,
      (maskL8sr p).srB2 = p.srB2.map rescale ∧
      (maskL8sr p).srB3 = p.srB3.map rescale ∧
      (maskL8sr p).srB4 = p.srB4.map rescale ∧
      (maskL8sr p).srB5 = p.srB5.map rescale ∧
      (maskL8sr p).srB6 = p.srB6.map rescale ∧
      (maskL8sr p).srB7 = p.srB7.map rescale ∧
      (maskL8sr p).qa = (if maskOK p.qa then some p.qa else none) ∧
      (maskL8sr p).stB10 = (if maskOK p.qa then p.stB10 else none) ∧
      (maskL8sr p).cloudCover = p.cloudCover := by
  intro p
  exact ⟨rfl, rfl, rfl, rfl, rfl, rfl, rfl, rfl, rfl⟩

/-- C10: the chain produces only codes 0..7 or the sentinel 99, and after
the filter below 99 every surviving point — in the surviving set and in both
the training and the testing partitions — carries a class code at most 7. -/
theorem class_codes_in_range :
    (∀ r : Row, classNumber r ≤ 7 ∨ classNumber r = 99) ∧
    (∀ table : List Row,
      ((finalPoints table).all fun p => decide (p.targetClass ≤ 7)) = true) ∧
    (∀ (table : List Row) (keys : ℕ → ℚ),
      ((trainingSet table keys).all fun pk => decide (pk.1.targetClass ≤ 7)) = true) ∧
    (∀ (table : List Row) (keys : ℕ → ℚ),
      ((testingSet table keys).all fun pk => decide (pk.1.targetClass ≤ 7)) = true) := by
  refine ⟨classNumber_le7_or_99, ?_, ?_, ?_⟩
  · intro table
    rw [List.all_eq_true]
    intro p hp
    simpa using mem_finalPoints_le7 table p hp
  · intro table keys
    rw [List.all_eq_true]
    intro pk hpk
    have h1 : pk ∈ withRandom table keys := (List.mem_filter.mp hpk).1
    have h2 : pk.1 ∈ finalPoints table :=
      fst_mem_of_mem_attachKeys keys (finalPoints table) 0 pk h1
    simpa using mem_finalPoints_le7 table pk.1 h2
  · intro table keys
    rw [List.all_eq_true]
    intro pk hpk
    have h1 : pk ∈ withRandom table keys := (List.mem_filter.mp hpk).1
    have h2 : pk.1 ∈ finalPoints table :=
      fst_mem_of_mem_attachKeys keys (finalPoints table) 0 pk h1
    simpa using mem_finalPoints_le7 table pk.1 h2

end GIS
